import Mathlib

/-!
Shallow embedding of the retrieval-and-orchestration core of the RAG POC
(`src/backend/services/retriever.py` and `src/backend/services/orchestrator.py`),
together with theorems settling the frozen claims about it.

Conventions of the embedding:
* Python numeric scores are modelled as rationals (`ℚ`); an absent score or a
  value on which `float()` fails (`Retriever._safe_float` returns `None`) is
  modelled as `none : Option ℚ`.
* Python `str.strip()` is modelled by `pyStrip` (leading and trailing
  whitespace removed, ASCII whitespace), `str.lower()` by `pyLower`, and
  `str.join` by `joinSep`; these are defined over `List Char` by structural
  recursion so that concrete witnesses evaluate inside the kernel.
* The vector-store index and the chat-completion client are injected
  dependencies in the source; here they are explicit parameters.  `retrieve`
  additionally returns a `Bool` recording whether the index was consulted, and
  `run` returns a `Nat` counting chat-completion invocations, so that
  "no index access" / "no model call" properties are statable.
* Config values (`top_k`, `min_results`, thresholds, `score_type`) are the
  fields of explicit config structures, mirroring `load_config` defaults.
-/

namespace RagPoc

/-- Python `str.strip()`: drop leading and trailing whitespace characters. -/
def pyStrip (s : String) : String :=
  ⟨((s.data.dropWhile Char.isWhitespace).reverse.dropWhile Char.isWhitespace).reverse⟩

/-- Python `str.lower()`. -/
def pyLower (s : String) : String :=
  ⟨s.data.map Char.toLower⟩

/-- Python `sep.join(parts)`. -/
def joinSep (sep : String) : List String → String
  | [] => ""
  | [p] => p
  | p :: ps => p ++ sep ++ joinSep sep ps

/-- Python `a or b` on an optional string: `None` and the empty string are
falsy and fall through to `b`. -/
def orFalsy (a : Option String) (b : String) : String :=
  match a with
  | none => b
  | some s => if s = "" then b else s

/-- The metadata keys the core reads (`source_file`, `file_name`,
`source_path`, `file_path`); `none` models an absent key
(`meta.get(k)` returning `None`). -/
structure Metadata where
  source_file : Option String
  file_name : Option String
  source_path : Option String
  file_path : Option String
  deriving DecidableEq, Repr, Inhabited

/-- Python `meta.get("source_file") or meta.get("file_name") or "unknown"`. -/
def sourceFileOf (m : Metadata) : String :=
  orFalsy m.source_file (orFalsy m.file_name "unknown")

/-- Python `meta.get("source_path") or meta.get("file_path") or ""`. -/
def sourcePathOf (m : Metadata) : String :=
  orFalsy m.source_path (orFalsy m.file_path "")

/-- A `NodeWithScore` as seen by `Retriever.retrieve`: the candidate's score
(`none` when absent or not numeric), its text content and its metadata. -/
structure Candidate where
  score : Option ℚ
  text : String
  metadata : Metadata
  deriving DecidableEq, Repr

/-- The `RetrievedChunk` dataclass. -/
structure RetrievedChunk where
  text : String
  score : Option ℚ
  metadata : Metadata
  deriving DecidableEq, Repr, Inhabited

/-- The retrieval-relevant configuration (`load_config` keys). -/
structure RetrieverConfig where
  top_k : Nat
  min_results : Nat
  score_type : String
  min_score : Option ℚ
  max_distance : Option ℚ
  deriving Repr

/-- Model of `Retriever._detect_score_type`: empty score list defaults to
"similarity"; otherwise "distance" exactly when `max(scores) > 1.5`. -/
def detect_score_type (numeric_scores : List ℚ) : String :=
  match numeric_scores with
  | [] => "similarity"
  | s :: rest => if (3 / 2 : ℚ) < rest.foldl max s then "distance" else "similarity"

/-- Numeric scores collected from the raw results (`_safe_float` of each
candidate's score, keeping the convertible ones). -/
def numericScores (results : List Candidate) : List ℚ :=
  results.filterMap (fun r => r.score)

/-- The effective score type: `(cfg.get("score_type") or "auto").strip().lower()`,
with "auto" resolved through `_detect_score_type` on the observed scores. -/
def effectiveScoreType (cfg : RetrieverConfig) (results : List Candidate) : String :=
  let st := pyLower (pyStrip (orFalsy (some cfg.score_type) "auto"))
  if st = "auto" then detect_score_type (numericScores results) else st

/-- Similarity-mode keep predicate: unscored candidates are kept, scored ones
must satisfy `min_score <= score`. -/
def keepSim (ms : ℚ) (r : Candidate) : Bool :=
  match r.score with
  | none => true
  | some sc => decide (ms ≤ sc)

/-- Distance-mode keep predicate: unscored candidates are kept, scored ones
must satisfy `score <= max_distance`. -/
def keepDist (md : ℚ) (r : Candidate) : Bool :=
  match r.score with
  | none => true
  | some sc => decide (sc ≤ md)

/-- The threshold-filtering block of `Retriever.retrieve` (lines 172-192):
similarity mode with a configured `min_score` filters by `keepSim`, distance
mode with a configured `max_distance` filters by `keepDist`, otherwise no
threshold is active and the results pass through unfiltered. -/
def applyThreshold (score_type : String) (min_score max_distance : Option ℚ)
    (results : List Candidate) : List Candidate :=
  if score_type = "similarity" ∧ min_score.isSome then
    results.filter (keepSim (min_score.getD 0))
  else if score_type = "distance" ∧ max_distance.isSome then
    results.filter (keepDist (max_distance.getD 0))
  else
    results

/-- The post-search pipeline of `Retriever.retrieve`: threshold filtering,
the `min_results` safety net, and the final `top_k` cap. -/
def retrieveFrom (cfg : RetrieverConfig) (results : List Candidate) : List Candidate :=
  let filtered := applyThreshold (effectiveScoreType cfg results)
    cfg.min_score cfg.max_distance results
  let filtered2 :=
    if filtered = [] ∧ results ≠ [] ∧ 0 < cfg.min_results then
      results.take cfg.min_results
    else filtered
  filtered2.take cfg.top_k

/-- Materialization of a surviving candidate into a `RetrievedChunk`
(lines 201-207). -/
def toChunk (c : Candidate) : RetrievedChunk :=
  { text := c.text, score := c.score, metadata := c.metadata }

/-- Model of `Retriever.retrieve`.  `indexResults` is what the vector-store search
would return for the query; the second component records whether the index
was consulted at all (the code returns `[]` before touching the index when
the stripped question is empty). -/
def retrieve (cfg : RetrieverConfig) (indexResults : List Candidate)
    (input : String) : List RetrievedChunk × Bool :=
  if pyStrip input = "" then ([], false)
  else ((retrieveFrom cfg indexResults).map toChunk, true)

/-- The hard-coded fallback system prompt (`FALLBACK_SYSTEM_PROMPT`,
orchestrator.py lines 13-22). -/
def FALLBACK_SYSTEM_PROMPT : String :=
  "You are a RAG assistant.\n\n" ++
  "Rules (must follow):\n" ++
  "1) Use ONLY the information present in the provided CONTEXT.\n" ++
  "2) If the answer is not explicitly stated in the CONTEXT, reply: " ++
  "\"Je ne sais pas d\u2019après le contexte fourni.\"\n" ++
  "3) Do NOT add outside knowledge, examples, analogies, or background.\n" ++
  "4) Keep the answer concise and factual.\n" ++
  "5) If relevant, include short citations of the document."

/-- Model of `load_system_prompt`: `fileContent` is the prompt file's text, or `none`
when reading raises `FileNotFoundError`.  The content is stripped; an empty
(or whitespace-only) file falls back to `FALLBACK_SYSTEM_PROMPT`. -/
def load_system_prompt (fileContent : Option String) : String :=
  match fileContent with
  | none => FALLBACK_SYSTEM_PROMPT
  | some raw =>
    if pyStrip raw = "" then FALLBACK_SYSTEM_PROMPT else pyStrip raw

/-- A chat message (`{"role": ..., "content": ...}` dict). -/
structure Message where
  role : String
  content : String
  deriving DecidableEq, Repr

/-- Token-usage counters as normalized by `Orchestrator.run`. -/
structure Usage where
  prompt_tokens : Nat
  completion_tokens : Nat
  total_tokens : Nat
  deriving DecidableEq, Repr

/-- A citation record of the `sources` list built by `_format_context`. -/
structure Source where
  ref : Nat
  source_file : String
  source_path : String
  score : Option ℚ
  metadata : Metadata
  deriving DecidableEq, Repr, Inhabited

/-- The `OrchestratorInput` dataclass (history `None` modelled as `[]`). -/
structure OrchestratorInput where
  user : String
  input : String
  model : String
  chat_history : List Message
  deriving Repr

/-- The `OrchestratorOutput` dataclass. -/
structure OrchestratorOutput where
  answer : String
  usage : Usage
  sources : List Source
  deriving DecidableEq, Repr

/-- The orchestrator-relevant configuration: the `top_k` cap and the resolved
system prompt. -/
structure OrchestratorConfig where
  top_k : Nat
  system_prompt : String
  deriving Repr

/-- One iteration of the `_format_context` loop at 1-based position `i + 1`:
the numbered context segment and the matching citation record. -/
def formatPair (i : Nat) (ch : RetrievedChunk) : String × Source :=
  ("[" ++ toString (i + 1) ++ "] source_file=" ++ sourceFileOf ch.metadata ++
     "\n" ++ pyStrip ch.text,
   { ref := i + 1,
     source_file := sourceFileOf ch.metadata,
     source_path := sourcePathOf ch.metadata,
     score := ch.score,
     metadata := ch.metadata })

/-- The `parts` list accumulated by `_format_context`. -/
def contextParts (chunks : List RetrievedChunk) : List String :=
  (chunks.mapIdx formatPair).map Prod.fst

/-- Model of `Orchestrator._format_context`: the context block (segments joined by
`"\n\n---\n\n"`) and the sources list, built in a single pass. -/
def format_context (chunks : List RetrievedChunk) : String × List Source :=
  ((if contextParts chunks = [] then ""
    else joinSep "\n\n---\n\n" (contextParts chunks)),
   (chunks.mapIdx formatPair).map Prod.snd)

/-- Model of `Orchestrator.build_messages`: system turn, then any caller-supplied
history, then the final user turn with the fixed QUESTION/CONTEXT template. -/
def build_messages (system_prompt : String) (inp : OrchestratorInput)
    (context_block : String) : List Message :=
  (({ role := "system", content := system_prompt } : Message) ::
      (if inp.chat_history = [] then [] else inp.chat_history)) ++
    [{ role := "user",
       content := "QUESTION:\n" ++ inp.input ++ "\n\nCONTEXT:\n" ++ context_block }]

/-- The defensive text filter of `Orchestrator.run` (line 152): keep a chunk
exactly when its `text` is truthy, i.e. non-empty. -/
def dropEmptyText (chunks : List RetrievedChunk) : List RetrievedChunk :=
  chunks.filter (fun c => decide (c.text ≠ ""))

/-- The canned answer returned when no chunk survives. -/
def noDocsAnswer : String := "Aucun document trouvé pour cette requête."

/-- Model of `Orchestrator.run`.  `retrieved` is what `self.retriever.retrieve` returns
for the request's payload and `llm` is the chat-completion client; the `Nat`
component counts chat-completion invocations. -/
def run (cfg : OrchestratorConfig) (retrieved : List RetrievedChunk)
    (llm : List Message → String × Usage) (inp : OrchestratorInput) :
    OrchestratorOutput × Nat :=
  if (dropEmptyText retrieved).take cfg.top_k = [] then
    ({ answer := noDocsAnswer,
       usage := { prompt_tokens := 0, completion_tokens := 0, total_tokens := 0 },
       sources := [] }, 0)
  else
    let chunks := (dropEmptyText retrieved).take cfg.top_k
    let fc := format_context chunks
    let res := llm (build_messages cfg.system_prompt inp fc.1)
    ({ answer := res.1, usage := res.2, sources := fc.2 }, 1)

end RagPoc

namespace RagPoc

/-- C4 helper: the surviving candidate list is capped at `top_k`. -/
theorem retrieveFrom_length_le (cfg : RetrieverConfig) (results : List Candidate) :
    (retrieveFrom cfg results).length ≤ cfg.top_k := by
  unfold retrieveFrom
  simp only [List.length_take]
  exact Nat.min_le_left _ _

/-- C4: for every query and every candidate list returned by the index, the
list returned by `Retriever.retrieve` has length at most `top_k`. -/
theorem retrieve_length_le_top_k (cfg : RetrieverConfig)
    (indexResults : List Candidate) (input : String) :
    ((retrieve cfg indexResults input).1).length ≤ cfg.top_k := by
  unfold retrieve
  split
  · simp
  · simpa using retrieveFrom_length_le cfg indexResults

/-- C7: a question that is empty after stripping makes `retrieve` return the
empty list immediately, for any index contents, without consulting the index
(the `Bool` component is `false`). -/
theorem retrieve_blank_query (cfg : RetrieverConfig)
    (indexResults : List Candidate) (input : String) (h : pyStrip input = "") :
    retrieve cfg indexResults input = ([], false) := by
  unfold retrieve
  simp [h]

/-- C7 witness: the whitespace-only question "  " yields `([], false)` on a
non-trivial index. -/
theorem retrieve_blank_query_witness :
    retrieve ⟨5, 1, "auto", none, none⟩
      [⟨some 1, "text", ⟨none, none, none, none⟩⟩] "  " = ([], false) :=
  retrieve_blank_query _ _ "  " (by decide)

/-- Empty metadata, used as a concrete input in witnesses. -/
def mdNone : Metadata := ⟨none, none, none, none⟩

/-- C8 helper: threshold filtering, the safety net and the `top_k` cap each
only select from the candidate list, so their composition is a sublist of the
original, relevance-ordered candidates. -/
theorem retrieveFrom_sublist (cfg : RetrieverConfig) (results : List Candidate) :
    (retrieveFrom cfg results).Sublist results := by
  simp only [retrieveFrom]
  refine List.Sublist.trans (List.take_sublist _ _) ?_
  split
  · exact List.take_sublist _ _
  · unfold applyThreshold
    split
    · exact List.filter_sublist _
    · split
      · exact List.filter_sublist _
      · exact List.Sublist.refl _

/-- C8: the chunks returned by `Retriever.retrieve` appear in the same
relative order as in the original candidate list: the output is a sublist of
the (materialized) candidates, so filtering, the safety net and truncation
never reorder. -/
theorem retrieve_preserves_order (cfg : RetrieverConfig)
    (indexResults : List Candidate) (input : String) :
    ((retrieve cfg indexResults input).1).Sublist (indexResults.map toChunk) := by
  unfold retrieve
  split
  · simp
  · exact List.Sublist.map toChunk (retrieveFrom_sublist cfg indexResults)

/-- C9: a candidate without a numeric score is never dropped by the
threshold-filtering stage, whatever the resolved score semantics and
configured thresholds are. -/
theorem threshold_keeps_unscored (score_type : String) (ms md : Option ℚ)
    (results : List Candidate) (c : Candidate) (hmem : c ∈ results)
    (hs : c.score = none) :
    c ∈ applyThreshold score_type ms md results := by
  unfold applyThreshold
  split
  · exact List.mem_filter.mpr ⟨hmem, by simp [keepSim, hs]⟩
  · split
    · exact List.mem_filter.mpr ⟨hmem, by simp [keepDist, hs]⟩
    · exact hmem

/-- C9 witness: an unscored candidate survives similarity filtering with
`min_score = 2` configured. -/
theorem threshold_keeps_unscored_witness :
    (⟨none, "t", mdNone⟩ : Candidate) ∈
      applyThreshold "similarity" (some 2) none [⟨none, "t", mdNone⟩] :=
  threshold_keeps_unscored "similarity" (some 2) none _ _
    (List.mem_singleton.mpr rfl) rfl

/-- C1/C8 shared stage fact: length/emptiness behaviour of the post-search
pipeline when the index returned candidates. -/
theorem retrieveFrom_length_floor (cfg : RetrieverConfig)
    (results : List Candidate) (hne : results ≠ []) :
    (applyThreshold (effectiveScoreType cfg results) cfg.min_score
        cfg.max_distance results = [] →
      min (min cfg.min_results results.length) cfg.top_k ≤
        (retrieveFrom cfg results).length) ∧
    (applyThreshold (effectiveScoreType cfg results) cfg.min_score
        cfg.max_distance results ≠ [] →
      0 < cfg.top_k → retrieveFrom cfg results ≠ []) := by
  constructor
  · intro hfil
    simp only [retrieveFrom, hfil]
    by_cases hmr : 0 < cfg.min_results
    · rw [if_pos ⟨trivial, hne, hmr⟩]
      simp only [List.length_take]
      omega
    · have h0 : cfg.min_results = 0 := by omega
      rw [if_neg (by simp [h0])]
      simp [h0]
  · intro hfil htop
    simp only [retrieveFrom]
    rw [if_neg (fun hc => hfil hc.1)]
    refine List.length_pos.mp ?_
    have h1 := List.length_pos.mpr hfil
    simp only [List.length_take]
    omega

/-- C1 counterexample input: similarity filtering with `min_score = 2` keeps
exactly one of three candidates. -/
def cfgA : RetrieverConfig := ⟨5, 2, "similarity", some 2, none⟩

/-- C1 counterexample candidates: one passes the threshold, two fail it. -/
def rsB : List Candidate :=
  [⟨some 3, "a", mdNone⟩, ⟨some 1, "b", mdNone⟩, ⟨some 1, "c", mdNone⟩]

/-- C1 counterexample: with `min_results = 2`, a query on which the index
returns three candidates but threshold filtering keeps exactly one yields a
single chunk, below the claimed floor `min(min_results, count) = 2` — the
safety net only fires when filtering removed every candidate. -/
theorem retrieve_floor_cex :
    ¬ (min cfgA.min_results rsB.length ≤
        ((retrieve cfgA rsB "q").1).length) := by decide

/-- C1 amended: when the index returned candidates, (a) if threshold
filtering eliminated every candidate the result has length at least
`min(min_results, count, top_k)`, and (b) if filtering kept at least one
candidate and `top_k > 0`, the result is non-empty. -/
theorem retrieve_floor_amended (cfg : RetrieverConfig)
    (results : List Candidate) (input : String)
    (hq : pyStrip input ≠ "") (hne : results ≠ []) :
    (applyThreshold (effectiveScoreType cfg results) cfg.min_score
        cfg.max_distance results = [] →
      min (min cfg.min_results results.length) cfg.top_k ≤
        ((retrieve cfg results input).1).length) ∧
    (applyThreshold (effectiveScoreType cfg results) cfg.min_score
        cfg.max_distance results ≠ [] →
      0 < cfg.top_k → (retrieve cfg results input).1 ≠ []) := by
  unfold retrieve
  rw [if_neg hq]
  constructor
  · intro hfil
    simpa using (retrieveFrom_length_floor cfg results hne).1 hfil
  · intro hfil htop
    simpa using (retrieveFrom_length_floor cfg results hne).2 hfil htop

/-- C1 amended witness candidates: every score is below the threshold, so
filtering eliminates all of them and the safety net fires. -/
def rsA : List Candidate :=
  [⟨some 1, "a", mdNone⟩, ⟨some 0, "b", mdNone⟩, ⟨some 1, "c", mdNone⟩]

/-- C1 witness: on candidates all eliminated by filtering, the result reaches
the floor `min(min_results, count, top_k)`. -/
theorem retrieve_floor_amended_witness :
    min (min cfgA.min_results rsA.length) cfgA.top_k ≤
      ((retrieve cfgA rsA "q").1).length :=
  (retrieve_floor_amended cfgA rsA "q" (by decide) (by decide)).1 (by decide)

end RagPoc

namespace RagPoc

/-- C5 counterexample: the prompt file content " x" is returned with its
leading whitespace removed as well, not merely trailing-stripped — Python
`str.strip()` strips both ends, so the claim's "verbatim up to a single
trailing strip" fails. -/
theorem load_system_prompt_strip_cex :
    load_system_prompt (some " x") ≠ " x" := by decide

/-- C5 amended: for an existing file whose content is non-empty after
stripping, `load_system_prompt` returns the content stripped of leading and
trailing whitespace; for a missing file, or one whose content strips to the
empty string, it returns the fallback constant byte-for-byte. -/
theorem load_system_prompt_amended :
    (∀ raw : String, pyStrip raw ≠ "" →
      load_system_prompt (some raw) = pyStrip raw) ∧
    (∀ raw : String, pyStrip raw = "" →
      load_system_prompt (some raw) = FALLBACK_SYSTEM_PROMPT) ∧
    load_system_prompt none = FALLBACK_SYSTEM_PROMPT := by
  refine ⟨?_, ?_, rfl⟩
  · intro raw h
    simp [load_system_prompt, h]
  · intro raw h
    simp [load_system_prompt, h]

/-- C5 witness: the file content " x" strips to "x" and is returned stripped;
the missing file returns the fallback. -/
theorem load_system_prompt_amended_witness :
    load_system_prompt (some " x") = pyStrip " x" ∧
    load_system_prompt none = FALLBACK_SYSTEM_PROMPT :=
  ⟨load_system_prompt_amended.1 " x" (by decide), load_system_prompt_amended.2.2⟩

/-- C2: when, after dropping empty-text chunks and capping to `top_k`, no
chunk remains, `run` returns the canned no-documents answer with all-zero
usage and no sources, and performs zero chat-completion invocations. -/
theorem run_no_chunks_short_circuit (cfg : OrchestratorConfig)
    (retrieved : List RetrievedChunk) (llm : List Message → String × Usage)
    (inp : OrchestratorInput)
    (h : (dropEmptyText retrieved).take cfg.top_k = []) :
    run cfg retrieved llm inp =
      ({ answer := noDocsAnswer,
         usage := { prompt_tokens := 0, completion_tokens := 0, total_tokens := 0 },
         sources := [] }, 0) := by
  unfold run
  rw [if_pos h]

/-- C2 witness: a retrieval consisting of one empty-text chunk short-circuits
even though the chat client would report non-zero usage if called. -/
theorem run_no_chunks_short_circuit_witness :
    (dropEmptyText [(⟨"", some 1, mdNone⟩ : RetrievedChunk)]).take 5 = [] ∧
    run ⟨5, "sys"⟩ [(⟨"", some 1, mdNone⟩ : RetrievedChunk)]
        (fun _ => ("model answer", ⟨3, 4, 7⟩)) ⟨"u", "q", "m", []⟩ =
      ({ answer := noDocsAnswer,
         usage := { prompt_tokens := 0, completion_tokens := 0, total_tokens := 0 },
         sources := [] }, 0) :=
  ⟨by decide, run_no_chunks_short_circuit _ _ _ _ (by decide)⟩

/-- C3/C10 shared helper: the `i`-th context segment is the numbered marker
for position `i + 1` followed by the chunk's source file and stripped text. -/
theorem contextParts_getD (chunks : List RetrievedChunk) (i : Nat)
    (h : i < chunks.length) :
    (contextParts chunks).getD i "" =
      "[" ++ toString (i + 1) ++ "] source_file=" ++
        sourceFileOf (chunks.getD i default).metadata ++ "\n" ++
        pyStrip (chunks.getD i default).text := by
  have h1 : i < (contextParts chunks).length := by
    simpa [contextParts] using h
  have h2 : i < (chunks.mapIdx formatPair).length := by
    simpa using h
  rw [List.getD_eq_getElem _ _ h1, List.getD_eq_getElem _ _ h]
  simp only [contextParts, List.getElem_map]
  have hm := List.get_mapIdx chunks formatPair i h h2
  simp only [List.get_eq_getElem] at hm
  rw [hm]
  rfl

/-- C3 helper: the `i`-th citation record is built from the `i`-th chunk with
1-based reference number `i + 1`. -/
theorem format_sources_getD (chunks : List RetrievedChunk) (i : Nat)
    (h : i < chunks.length) :
    (format_context chunks).2.getD i default =
      { ref := i + 1,
        source_file := sourceFileOf (chunks.getD i default).metadata,
        source_path := sourcePathOf (chunks.getD i default).metadata,
        score := (chunks.getD i default).score,
        metadata := (chunks.getD i default).metadata } := by
  have h1 : i < (format_context chunks).2.length := by
    simpa [format_context] using h
  have h2 : i < (chunks.mapIdx formatPair).length := by
    simpa using h
  rw [List.getD_eq_getElem _ _ h1, List.getD_eq_getElem _ _ h]
  simp only [format_context, List.getElem_map]
  have hm := List.get_mapIdx chunks formatPair i h h2
  simp only [List.get_eq_getElem] at hm
  rw [hm]
  rfl

/-- C3: the context block and the sources list correspond index-for-index:
the `i`-th (0-based) segment carries the 1-based marker `[i+1]` and describes
the same chunk as the `i`-th citation record, whose `ref` is `i + 1`; for a
non-empty chunk list the context block is exactly the segments joined by the
fixed separator. -/
theorem format_context_citation_correspondence (chunks : List RetrievedChunk)
    (i : Nat) (h : i < chunks.length) :
    (contextParts chunks).getD i "" =
      "[" ++ toString (i + 1) ++ "] source_file=" ++
        sourceFileOf (chunks.getD i default).metadata ++ "\n" ++
        pyStrip (chunks.getD i default).text ∧
    (format_context chunks).2.getD i default =
      { ref := i + 1,
        source_file := sourceFileOf (chunks.getD i default).metadata,
        source_path := sourcePathOf (chunks.getD i default).metadata,
        score := (chunks.getD i default).score,
        metadata := (chunks.getD i default).metadata } ∧
    (chunks ≠ [] →
      (format_context chunks).1 = joinSep "\n\n---\n\n" (contextParts chunks)) := by
  refine ⟨contextParts_getD chunks i h, format_sources_getD chunks i h, ?_⟩
  intro hne
  have hp : contextParts chunks ≠ [] := by
    rw [← List.length_pos]
    simpa [contextParts] using List.length_pos.mpr hne
  simp [format_context, hp]

/-- A concrete retrieved chunk used as witness input. -/
def sampleChunk : RetrievedChunk :=
  ⟨"hello", some 1, ⟨some "a.pdf", none, some "p/a.pdf", none⟩⟩

/-- C3 witness: the single-chunk context block has segment "[1] ..." and a
matching `ref = 1` citation record. -/
theorem format_context_citation_correspondence_witness :
    (contextParts [sampleChunk]).getD 0 "" =
      "[" ++ toString (0 + 1) ++ "] source_file=" ++
        sourceFileOf (([sampleChunk].getD 0 default)).metadata ++ "\n" ++
        pyStrip ([sampleChunk].getD 0 default).text ∧
    (format_context [sampleChunk]).2.getD 0 default =
      { ref := 0 + 1,
        source_file := sourceFileOf (([sampleChunk].getD 0 default)).metadata,
        source_path := sourcePathOf (([sampleChunk].getD 0 default)).metadata,
        score := ([sampleChunk].getD 0 default).score,
        metadata := ([sampleChunk].getD 0 default).metadata } ∧
    ([sampleChunk] ≠ [] →
      (format_context [sampleChunk]).1 =
        joinSep "\n\n---\n\n" (contextParts [sampleChunk])) :=
  format_context_citation_correspondence [sampleChunk] 0 (by decide)

/-- C6 helper: an accumulator-based fold by `max` exceeds a bound exactly when
the accumulator or some list element does. -/
theorem lt_foldl_max_iff (c a : ℚ) (l : List ℚ) :
    c < l.foldl max a ↔ c < a ∨ ∃ x ∈ l, c < x := by
  induction l generalizing a with
  | nil => simp
  | cons y ys ih =>
    rw [List.foldl_cons, ih, lt_max_iff]
    constructor
    · rintro ((hca | hcy) | ⟨x, hx, hcx⟩)
      · exact Or.inl hca
      · exact Or.inr ⟨y, List.mem_cons_self y ys, hcy⟩
      · exact Or.inr ⟨x, List.mem_cons_of_mem y hx, hcx⟩
    · rintro (hca | ⟨x, hx, hcx⟩)
      · exact Or.inl (Or.inl hca)
      · rcases List.mem_cons.mp hx with rfl | hx2
        · exact Or.inl (Or.inr hcx)
        · exact Or.inr ⟨x, hx2, hcx⟩

/-- C6: on a non-empty batch of observed numeric scores, `auto` detection
classifies "distance" exactly when the maximum score exceeds 1.5 (i.e. some
score exceeds 1.5) and "similarity" otherwise; in particular
`[0.2, 0.4, 0.9]` classifies as similarity and `[1.8, 2.1]` as distance. -/
theorem detect_score_type_spec :
    (∀ scores : List ℚ, scores ≠ [] →
      ((detect_score_type scores = "distance" ↔
          ∃ s ∈ scores, (3 / 2 : ℚ) < s) ∧
       (detect_score_type scores = "similarity" ↔
          ∀ s ∈ scores, s ≤ (3 / 2 : ℚ)))) ∧
    detect_score_type [(0.2 : ℚ), 0.4, 0.9] = "similarity" ∧
    detect_score_type [(1.8 : ℚ), 2.1] = "distance" := by
  have main : ∀ scores : List ℚ, scores ≠ [] →
      ((detect_score_type scores = "distance" ↔
          ∃ s ∈ scores, (3 / 2 : ℚ) < s) ∧
       (detect_score_type scores = "similarity" ↔
          ∀ s ∈ scores, s ≤ (3 / 2 : ℚ))) := by
    intro scores hne
    rcases scores with _ | ⟨s, rest⟩
    · exact absurd rfl hne
    · have key : ((3 / 2 : ℚ) < rest.foldl max s) ↔
          ∃ x ∈ s :: rest, (3 / 2 : ℚ) < x := by
        rw [lt_foldl_max_iff, List.exists_mem_cons_iff]
      have hd : detect_score_type (s :: rest) =
          if (3 / 2 : ℚ) < rest.foldl max s then "distance" else "similarity" := rfl
      rw [hd]
      by_cases hmax : (3 / 2 : ℚ) < rest.foldl max s
      · rw [if_pos hmax]
        refine ⟨iff_of_true rfl (key.mp hmax), iff_of_false (by decide) ?_⟩
        obtain ⟨x, hx, hlt⟩ := key.mp hmax
        exact fun hall => absurd (hall x hx) (not_le.mpr hlt)
      · rw [if_neg hmax]
        refine ⟨iff_of_false (by decide) (fun hc => hmax (key.mpr hc)),
          iff_of_true rfl ?_⟩
        intro x hx
        by_contra hgt
        exact hmax (key.mpr ⟨x, hx, not_le.mp hgt⟩)
  refine ⟨main, ?_, ?_⟩
  · refine (main [0.2, 0.4, 0.9] (by simp)).2.mpr ?_
    intro x hx
    simp only [List.mem_cons, List.not_mem_nil, or_false] at hx
    rcases hx with rfl | rfl | rfl <;> norm_num
  · exact (main [1.8, 2.1] (by simp)).1.mpr ⟨1.8, by simp, by norm_num⟩

/-- C6 witness: the single observed score 2 classifies as "distance". -/
theorem detect_score_type_spec_witness :
    detect_score_type [(2 : ℚ)] = "distance" :=
  (detect_score_type_spec.1 [(2 : ℚ)] (by simp)).1.mpr ⟨2, by simp, by norm_num⟩

/-- C10: the defensive filter of `Orchestrator.run` keeps every chunk whose
text is non-empty — in particular whitespace-only text is retained — and a
retained chunk whose text strips to the empty string is rendered as a
numbered segment with an empty body. -/
theorem run_filter_whitespace_text (c : RetrievedChunk)
    (hne : c.text ≠ "") (hws : pyStrip c.text = "") :
    (∀ l : List RetrievedChunk, c ∈ l → c ∈ dropEmptyText l) ∧
    (∀ (l : List RetrievedChunk) (i : Nat), i < l.length →
      l.getD i default = c →
      (contextParts l).getD i "" =
        "[" ++ toString (i + 1) ++ "] source_file=" ++
          sourceFileOf c.metadata ++ "\n") := by
  constructor
  · intro l hmem
    exact List.mem_filter.mpr ⟨hmem, by simp [hne]⟩
  · intro l i hi hc
    rw [contextParts_getD l i hi, hc, hws, String.append_empty]

/-- C10 witness: a chunk whose text is a single space survives the filter and
renders as "[1] source_file=unknown\n" with an empty body. -/
theorem run_filter_whitespace_text_witness :
    ((⟨" ", none, mdNone⟩ : RetrievedChunk) ∈
        dropEmptyText [(⟨" ", none, mdNone⟩ : RetrievedChunk)]) ∧
    (contextParts [(⟨" ", none, mdNone⟩ : RetrievedChunk)]).getD 0 "" =
      "[" ++ toString (0 + 1) ++ "] source_file=" ++
        sourceFileOf (⟨" ", none, mdNone⟩ : RetrievedChunk).metadata ++ "\n" :=
  ⟨(run_filter_whitespace_text _ (by decide) (by decide)).1 _ (by simp),
   (run_filter_whitespace_text _ (by decide) (by decide)).2 _ 0 (by decide) (by decide)⟩

end RagPoc
